import Mathlib

/-
  Verification of the task-lifecycle orchestrator of the bilibili-video-maker
  repository (src/src/schedule/{models.py, task_store.py, scheduler.py}).

  Shallow embedding conventions:
  * `datetime` values are modelled as `Nat` (seconds); `timedelta(hours=1)`
    is `3600`; `datetime.now()` becomes an explicit `now : Nat` parameter at
    each operation that reads the clock.
  * The JSON file backing `TaskStore` is modelled as an association list
    `Store` keyed by task id (Python dict: unique keys, insertion order,
    in-place replacement on re-assignment).
  * External collaborators (`GameFetcher.get_game_status`, the content
    acquirer, video maker and publisher) are passed in as function
    parameters; a Python exception raised by a collaborator is an
    `Except.error`, a normal return is `Except.ok`.
  * `models.py` in the repository is stale: its `GameInfo.__init__` lacks the
    `match_id` and `rating_count` attributes and its `TaskStatus` enum lacks
    the waiting member, although `scheduler.py`, `task_store.py` and the
    tests all use them (`TaskStatus.WAITING_GAME_END`,
    `GameInfo(..., match_id=...)`, `game_info.rating_count`).  Those missing
    declarations are modelled below from the spec and from their callers;
    everything else follows `src/` literally — in particular
    `GameInfo.to_dict` (models.py lines 52-62) serializes exactly seven keys
    and omits `match_id` and `rating_count`.
-/

namespace Sched

/-- Task status enum of models.py.  `waiting_game_end` — Modelled from the
spec: models.py's `TaskStatus` omits the waiting state (`WAITING_GAME_END`,
the spec's `WAITING`) that scheduler.py, task_store.py and the tests use;
its string value follows the naming convention of the other members. -/
inductive TaskStatus where
  | pending
  | running
  | collecting
  | generating
  | publishing
  | completed
  | failed
  | cancelled
  | waiting_game_end
  deriving DecidableEq, Repr

/-- The `.value` of a status member (the string stored in JSON). -/
def TaskStatus.value : TaskStatus → String
  | .pending => "pending"
  | .running => "running"
  | .collecting => "collecting"
  | .generating => "generating"
  | .publishing => "publishing"
  | .completed => "completed"
  | .failed => "failed"
  | .cancelled => "cancelled"
  | .waiting_game_end => "waiting_game_end"

/-- `TaskStatus(s)`: enum lookup by value; an unknown value raises
`ValueError` in Python, modelled as `none` (the caller `_dict_to_task`
catches the exception and returns `None`). -/
def TaskStatus.fromValue (s : String) : Option TaskStatus :=
  if s = "pending" then some .pending
  else if s = "running" then some .running
  else if s = "collecting" then some .collecting
  else if s = "generating" then some .generating
  else if s = "publishing" then some .publishing
  else if s = "completed" then some .completed
  else if s = "failed" then some .failed
  else if s = "cancelled" then some .cancelled
  else if s = "waiting_game_end" then some .waiting_game_end
  else none

/-- Game (event) snapshot embedded in a task.  The first seven fields are
models.py's `GameInfo.__init__` parameters.  `match_id` and `rating_count`
— Modelled from the spec: the event id and popularity metric attributes are
missing from the stale models.py but are set by every caller in src/
(`create_task_from_game` passes `match_id`, `_dict_to_task` passes
`match_id`, the scheduler assigns `game_info.rating_count`); `rating_count`
defaults to 0 when not supplied, matching `get_game_status`'s "0 when
unparsable" convention. -/
structure GameInfo where
  game_id : String
  home_team_name : String
  away_team_name : String
  home_score : String
  away_score : String
  competition_stage_desc : String
  match_status : String
  match_id : String
  rating_count : Int
  deriving DecidableEq, Repr

/-- The dictionary produced by `GameInfo.to_dict` (models.py lines 52-62):
exactly these seven keys; `match_id` and `rating_count` are NOT serialized. -/
structure GameInfoDict where
  game_id : String
  home_team_name : String
  away_team_name : String
  home_score : String
  away_score : String
  competition_stage_desc : String
  match_status : String
  deriving DecidableEq, Repr

/-- `GameInfo.to_dict` from models.py. -/
def GameInfo.to_dict (g : GameInfo) : GameInfoDict :=
  { game_id := g.game_id
    home_team_name := g.home_team_name
    away_team_name := g.away_team_name
    home_score := g.home_score
    away_score := g.away_score
    competition_stage_desc := g.competition_stage_desc
    match_status := g.match_status }

/-- The `task.config` dict.  The code uses exactly the keys
`next_check_time` (an isoformat timestamp, modelled as `Nat`),
`game_status` and `rating_count`; absent keys are `none`.  The config dict
round-trips through JSON unchanged. -/
structure TaskConfig where
  next_check_time : Option Nat := none
  game_status : Option String := none
  rating_count : Option Int := none
  deriving DecidableEq, Repr

/-- Task data model (models.py `Task`).  `result` is a dict the scheduler
never writes; it is modelled as an opaque association list that JSON
round-trips unchanged. -/
structure Task where
  task_id : String
  game_info : GameInfo
  status : TaskStatus
  create_time : Option Nat := none
  start_time : Option Nat := none
  end_time : Option Nat := none
  config : TaskConfig := {}
  result : List (String × String) := []
  error_msg : Option String := none
  deriving DecidableEq, Repr

/-- The dictionary produced by `Task.to_dict` and stored in the JSON file. -/
structure TaskDict where
  task_id : String
  game_info : GameInfoDict
  status : String
  create_time : Option Nat
  start_time : Option Nat
  end_time : Option Nat
  config : TaskConfig
  result : List (String × String)
  error_msg : Option String
  deriving DecidableEq, Repr

/-- `Task.to_dict` from models.py: isoformat on the timestamps is the
identity in this model, `status` is stored as its `.value` string, and the
game info goes through `GameInfo.to_dict`. -/
def Task.to_dict (t : Task) : TaskDict :=
  { task_id := t.task_id
    game_info := t.game_info.to_dict
    status := t.status.value
    create_time := t.create_time
    start_time := t.start_time
    end_time := t.end_time
    config := t.config
    result := t.result
    error_msg := t.error_msg }

/-- `TaskStore._dict_to_task` (task_store.py lines 188-238): rebuilds the
`GameInfo` with `game_info_data.get("match_id", "")` — the stored game-info
dict has no `match_id` key, so the reconstructed `match_id` is always ""
and `rating_count` falls back to its default 0.  An unknown status string
raises inside the `try`, so the function returns `none`. -/
def dict_to_task (d : TaskDict) : Option Task :=
  match TaskStatus.fromValue d.status with
  | none => none
  | some st =>
    some
      { task_id := d.task_id
        game_info :=
          { game_id := d.game_info.game_id
            home_team_name := d.game_info.home_team_name
            away_team_name := d.game_info.away_team_name
            home_score := d.game_info.home_score
            away_score := d.game_info.away_score
            competition_stage_desc := d.game_info.competition_stage_desc
            match_status := d.game_info.match_status
            match_id := ""
            rating_count := 0 }
        status := st
        create_time := d.create_time
        start_time := d.start_time
        end_time := d.end_time
        config := d.config
        result := d.result
        error_msg := d.error_msg }

/-- The `"tasks"` object of the backing JSON file: an association list keyed
by task id.  JSON objects / Python dicts have unique keys; assignment
replaces in place, a new key is appended. -/
abbrev Store := List (String × TaskDict)

/-- Python `data["tasks"][k] = v`: in-place replacement if the key exists,
append otherwise. -/
def storeSet : Store → String → TaskDict → Store
  | [], k, v => [(k, v)]
  | (a, b) :: rest, k, v =>
    if a = k then (k, v) :: rest else (a, b) :: storeSet rest k v

/-- Python `data["tasks"].get(k)`. -/
def storeGet : Store → String → Option TaskDict
  | [], _ => none
  | (a, b) :: rest, k => if a = k then some b else storeGet rest k

/-- `TaskStore.save_task`: load, assign `data["tasks"][task.task_id] =
task.to_dict()`, save. -/
def save_task (s : Store) (t : Task) : Store :=
  storeSet s t.task_id t.to_dict

/-- `TaskStore.get_task`: dict lookup, then `_dict_to_task` (absent or
unconvertible entries give `none`). -/
def get_task (s : Store) (task_id : String) : Option Task :=
  (storeGet s task_id).bind dict_to_task

/-- `TaskStore.get_all_tasks`: convert every stored dict, silently dropping
the ones `_dict_to_task` rejects. -/
def get_all_tasks (s : Store) : List Task :=
  s.filterMap (fun p => dict_to_task p.2)

/-- `TaskStore.get_tasks_by_status`. -/
def get_tasks_by_status (s : Store) (status : TaskStatus) : List Task :=
  (get_all_tasks s).filter (fun t => t.status = status)

/-- `TaskStore.get_tasks_by_match_id`: filters `get_all_tasks` on the
reconstructed `game_info.match_id`. -/
def get_tasks_by_match_id (s : Store) (match_id : String) : List Task :=
  (get_all_tasks s).filter (fun t => t.game_info.match_id = match_id)

/-- The pure field update performed by `TaskStore.update_task_status` on a
loaded task (task_store.py lines 169-183): set the status; set `start_time`
on first entry into RUNNING; set `end_time` on any terminal status; set
`error_msg` only when a truthy (non-empty) message is given; set
`config["next_check_time"]` only when a time is given. -/
def apply_status_update (now : Nat) (t : Task) (status : TaskStatus)
    (error_msg : Option String) (next_check_time : Option Nat) : Task :=
  { t with
    status := status
    start_time :=
      if status = .running ∧ t.start_time = none then some now else t.start_time
    end_time :=
      if status = .completed ∨ status = .failed ∨ status = .cancelled then
        some now
      else t.end_time
    error_msg :=
      match error_msg with
      | some e => if e = "" then t.error_msg else some e
      | none => t.error_msg
    config :=
      match next_check_time with
      | some m => { t.config with next_check_time := some m }
      | none => t.config }

/-- `TaskStore.update_task_status` (task_store.py lines 148-186): load the
task by id; a missing (or unconvertible) task is a logged no-op; otherwise
mutate per `apply_status_update` and save. -/
def update_task_status (now : Nat) (s : Store) (task_id : String)
    (status : TaskStatus) (error_msg : Option String)
    (next_check_time : Option Nat) : Store :=
  match get_task s task_id with
  | none => s
  | some t => save_task s (apply_status_update now t status error_msg next_check_time)

/-- The whole backing file of `TaskStore` (the `{"tasks": {...}}` object). -/
structure StoreData where
  tasks : Store
  deriving DecidableEq, Repr

/-- `TaskStore._load_data` (task_store.py lines 36-43): the raw file read
either succeeds with the parsed data or raises; the `except` handler logs
and returns `{"tasks": {}}`. -/
def load_data (read_result : Except String StoreData) : StoreData :=
  match read_result with
  | .ok d => d
  | .error _ => { tasks := [] }

/-- `TaskStore._save_data` (task_store.py lines 45-51): writing either
succeeds, replacing the file contents, or raises; the `except` handler logs
and leaves the file as it was. -/
def save_data (write_ok : Bool) (file : StoreData) (d : StoreData) : StoreData :=
  if write_ok then d else file

/-- One game entry as returned by `GameFetcher.get_today_nba_games`.  The
scheduler reads each field through `game_data.get("snake") or
game_data.get("camel", "")` key coalescing; the model carries the coalesced
value directly. -/
structure GameData where
  game_id : String
  homeTeamName : String
  awayTeamName : String
  homeScore : String
  awayScore : String
  competitionStageDesc : String
  matchStatus : String
  matchId : String
  deriving DecidableEq, Repr

/-- Result of `GameFetcher.get_game_status`: the dict with `status` in
{"未开始", "进行中", "已结束"} and the parsed `rating_count` (0 when
unparsable); `none` models both a raised error and a missing match element. -/
structure StatusInfo where
  status : String
  rating_count : Int
  deriving DecidableEq, Repr

/-- `TaskScheduler._generate_task_id`: `task_{game_id}_{timestamp}` with the
timestamp rendered from the current time (second granularity: two calls at
the same `now` collide, exactly as with `%Y%m%d%H%M%S`). -/
def generate_task_id (now : Nat) (game_id : String) : String :=
  "task_" ++ game_id ++ "_" ++ toString now

/-- `TaskScheduler.create_task_from_game` (scheduler.py lines 144-181):
build the `GameInfo` snapshot, generate the id, and create the task with
status PENDING and `create_time = now`. -/
def create_task_from_game (now : Nat) (g : GameData) : Task :=
  { task_id := generate_task_id now g.game_id
    game_info :=
      { game_id := g.game_id
        home_team_name := g.homeTeamName
        away_team_name := g.awayTeamName
        home_score := g.homeScore
        away_score := g.awayScore
        competition_stage_desc := g.competitionStageDesc
        match_status := g.matchStatus
        match_id := g.matchId
        rating_count := 0 }
    status := .pending
    create_time := some now }

/-- The loop body of `TaskScheduler.start_daily_tasks` (scheduler.py lines
59-139) for one game.  `get_status` is `GameFetcher.get_game_status`.
Branches, in source order:
1. an existing incomplete (non-terminal) task for the match id is reused
   and creation is skipped;
2. status query failed: save the new task as WAITING_GAME_END with
   `next_check_time = now + 1h`;
3. "已结束" (ENDED) with `rating_count >= 30000`: save as PENDING;
4. "已结束" with `rating_count < 30000`: `continue` — the task is NOT saved
   and NOT appended ("不保存任务，直接跳过");
5. "未开始"/"进行中": save as WAITING_GAME_END with `next_check_time`,
   `game_status` and `rating_count` recorded in config;
6. any other status: save as WAITING_GAME_END with `next_check_time` and
   `rating_count` recorded. -/
def daily_step (get_status : String → Option StatusInfo) (now : Nat)
    (acc : Store × List Task) (g : GameData) : Store × List Task :=
  let store := acc.1
  let tasks := acc.2
  let match_id := g.matchId
  let existing_tasks := get_tasks_by_match_id store match_id
  let incomplete_tasks := existing_tasks.filter (fun t =>
    ¬ (t.status = .completed ∨ t.status = .failed ∨ t.status = .cancelled))
  if existing_tasks ≠ [] ∧ incomplete_tasks ≠ [] then
    (store, tasks ++ incomplete_tasks)
  else
    let task := create_task_from_game now g
    match get_status match_id with
    | none =>
      let task := { task with
        status := .waiting_game_end
        config := { task.config with next_check_time := some (now + 3600) } }
      (save_task store task, tasks ++ [task])
    | some info =>
      let task := { task with
        game_info := { task.game_info with rating_count := info.rating_count } }
      if info.status = "已结束" then
        if info.rating_count ≥ 30000 then
          let task := { task with status := .pending }
          (save_task store task, tasks ++ [task])
        else
          (store, tasks)
      else if info.status = "未开始" ∨ info.status = "进行中" then
        let task := { task with
          status := .waiting_game_end
          config := { task.config with
            next_check_time := some (now + 3600)
            game_status := some info.status
            rating_count := some info.rating_count } }
        (save_task store task, tasks ++ [task])
      else
        let task := { task with
          status := .waiting_game_end
          config := { task.config with
            next_check_time := some (now + 3600)
            rating_count := some info.rating_count } }
        (save_task store task, tasks ++ [task])

/-- `TaskScheduler.start_daily_tasks` (scheduler.py lines 41-142): an empty
game list ends the run immediately; otherwise process each game in order.
Per-game exceptions are caught and logged, which never occurs in this pure
model. -/
def start_daily_tasks (games : List GameData)
    (get_status : String → Option StatusInfo) (now : Nat) (store : Store) :
    Store × List Task :=
  if games = [] then (store, [])
  else games.foldl (daily_step get_status now) (store, [])

/-- `TaskScheduler.recheck_game_status_and_update` (scheduler.py lines
298-360).  Returns the updated store and the "now ready" boolean.  Branches:
* status query failed: re-save the in-memory task with `next_check_time =
  now + 1h`, return false;
* "已结束" and `rating_count >= 30000`: `update_task_status(task_id,
  PENDING)` on the store, return true (the in-memory rating update is not
  itself saved in this branch);
* "已结束" and below threshold: save with `game_status`, new
  `next_check_time`, return false;
* "未开始"/"进行中": save with `game_status`, new `next_check_time`,
  return false;
* unknown status: save with new `next_check_time`, return false. -/
def recheck_game_status_and_update (get_status : String → Option StatusInfo)
    (now : Nat) (store : Store) (task : Task) : Store × Bool :=
  match get_status task.game_info.match_id with
  | none =>
    let task := { task with
      config := { task.config with next_check_time := some (now + 3600) } }
    (save_task store task, false)
  | some info =>
    let task := { task with
      game_info := { task.game_info with rating_count := info.rating_count }
      config := { task.config with rating_count := some info.rating_count } }
    if info.status = "已结束" then
      if info.rating_count ≥ 30000 then
        (update_task_status now store task.task_id .pending none none, true)
      else
        let task := { task with
          config := { task.config with
            game_status := some info.status
            next_check_time := some (now + 3600) } }
        (save_task store task, false)
    else if info.status = "未开始" ∨ info.status = "进行中" then
      let task := { task with
        config := { task.config with
          game_status := some info.status
          next_check_time := some (now + 3600) } }
      (save_task store task, false)
    else
      let task := { task with
        config := { task.config with next_check_time := some (now + 3600) } }
      (save_task store task, false)

/-- Raw material returned by `ContentAcquirer.acquire_content`, opaque to
the orchestrator. -/
abbrev Content := String

/-- Python truthiness of the `video_path` value (`if not video_path`):
`None` and the empty string are falsy. -/
def falsy_path : Option String → Bool
  | none => true
  | some s => s = ""

/-- `TaskScheduler.execute_task` (scheduler.py lines 362-421).  The three
collaborators are parameters; `Except.error` is a raised exception, caught
by the surrounding `try` which records FAILED with the message.  Flow:
missing task or status ≠ PENDING: return with no store change; otherwise
RUNNING → COLLECTING → acquire → GENERATING → generate → (falsy video
path: skip publishing entirely and fall through to COMPLETED) → PUBLISHING
→ publish (a `False` return is only logged as a warning) → COMPLETED. -/
def execute_task (acquire : GameInfo → Except String Content)
    (generate : Content → Except String (Option String))
    (publish : String → GameInfo → Except String Bool)
    (now : Nat) (store : Store) (task_id : String) : Store :=
  match get_task store task_id with
  | none => store
  | some task =>
    if task.status ≠ .pending then store
    else
      let s := update_task_status now store task_id .running none none
      let s := update_task_status now s task_id .collecting none none
      match acquire task.game_info with
      | .error e => update_task_status now s task_id .failed (some e) none
      | .ok content =>
        let s := update_task_status now s task_id .generating none none
        match generate content with
        | .error e => update_task_status now s task_id .failed (some e) none
        | .ok video_path =>
          if falsy_path video_path then
            update_task_status now s task_id .completed none none
          else
            let s := update_task_status now s task_id .publishing none none
            match publish (video_path.getD "") task.game_info with
            | .error e => update_task_status now s task_id .failed (some e) none
            | .ok _publish_success =>
              update_task_status now s task_id .completed none none

/-- `TaskScheduler.start_task` (scheduler.py lines 423-448): returns False
without touching the store when the task is missing or not PENDING,
otherwise runs `execute_task` and returns True. -/
def start_task (acquire : GameInfo → Except String Content)
    (generate : Content → Except String (Option String))
    (publish : String → GameInfo → Except String Bool)
    (now : Nat) (store : Store) (task_id : String) : Store × Bool :=
  match get_task store task_id with
  | none => (store, false)
  | some task =>
    if task.status ≠ .pending then (store, false)
    else (execute_task acquire generate publish now store task_id, true)

/-- What a task looks like after one store round trip (`save_task` then
`get_task`): `GameInfo.to_dict` drops `match_id` and `rating_count`, so the
reconstruction resets them to `""` and `0`; every other field survives. -/
def reloaded (t : Task) : Task :=
  { t with game_info := { t.game_info with match_id := "", rating_count := 0 } }

theorem dict_to_task_to_dict (t : Task) :
    dict_to_task t.to_dict = some (reloaded t) := by
  cases t with
  | mk task_id game_info status create_time start_time end_time config result error_msg =>
    cases game_info
    cases status <;> rfl

@[simp] theorem reloaded_task_id (t : Task) :
    (reloaded t).task_id = t.task_id := rfl

@[simp] theorem reloaded_status (t : Task) :
    (reloaded t).status = t.status := rfl

@[simp] theorem reloaded_error_msg (t : Task) :
    (reloaded t).error_msg = t.error_msg := rfl

@[simp] theorem apply_status_update_task_id (now : Nat) (t : Task)
    (st : TaskStatus) (e : Option String) (n : Option Nat) :
    (apply_status_update now t st e n).task_id = t.task_id := rfl

@[simp] theorem apply_status_update_status (now : Nat) (t : Task)
    (st : TaskStatus) (e : Option String) (n : Option Nat) :
    (apply_status_update now t st e n).status = st := rfl

@[simp] theorem apply_status_update_error_none (now : Nat) (t : Task)
    (st : TaskStatus) (n : Option Nat) :
    (apply_status_update now t st none n).error_msg = t.error_msg := rfl

theorem storeGet_storeSet_self (s : Store) (k : String) (v : TaskDict) :
    storeGet (storeSet s k v) k = some v := by
  induction s with
  | nil => simp [storeSet, storeGet]
  | cons p rest ih =>
    obtain ⟨a, b⟩ := p
    by_cases h : a = k
    · subst h
      simp [storeSet, storeGet]
    · simp [storeSet, storeGet, h, ih]

theorem get_task_save_task (s : Store) (t : Task) :
    get_task (save_task s t) t.task_id = some (reloaded t) := by
  simp [get_task, save_task, storeGet_storeSet_self, dict_to_task_to_dict]

/-- Well-formed store: every entry is keyed by the task id recorded inside
it.  `save_task` only ever writes entries of this shape. -/
def WFStore (s : Store) : Prop := ∀ p ∈ s, p.2.task_id = p.1

instance (s : Store) : Decidable (WFStore s) := List.decidableBAll _ s

theorem wfStore_storeGet {s : Store} (h : WFStore s) {k : String}
    {d : TaskDict} (hg : storeGet s k = some d) : d.task_id = k := by
  induction s with
  | nil => simp [storeGet] at hg
  | cons p rest ih =>
    obtain ⟨a, b⟩ := p
    by_cases hak : a = k
    · subst hak
      simp [storeGet] at hg
      rw [← hg]
      exact h (a, b) (List.mem_cons_self _ _)
    · simp [storeGet, hak] at hg
      exact ih (fun q hq => h q (List.mem_cons_of_mem _ hq)) hg

theorem dict_to_task_task_id {d : TaskDict} {t : Task}
    (h : dict_to_task d = some t) : t.task_id = d.task_id := by
  unfold dict_to_task at h
  cases hf : TaskStatus.fromValue d.status with
  | none => rw [hf] at h; simp at h
  | some st =>
    rw [hf] at h
    simp at h
    subst h
    rfl

theorem get_task_task_id {s : Store} (hwf : WFStore s) {i : String}
    {t : Task} (h : get_task s i = some t) : t.task_id = i := by
  unfold get_task at h
  cases hg : storeGet s i with
  | none => rw [hg] at h; simp at h
  | some d =>
    rw [hg] at h
    simp at h
    rw [dict_to_task_task_id h]
    exact wfStore_storeGet hwf hg

theorem wfStore_storeSet {s : Store} (h : WFStore s) {k : String}
    {v : TaskDict} (hv : v.task_id = k) : WFStore (storeSet s k v) := by
  induction s with
  | nil =>
    intro p hp
    simp [storeSet] at hp
    subst hp
    exact hv
  | cons q rest ih =>
    obtain ⟨a, b⟩ := q
    by_cases hak : a = k
    · subst hak
      intro p hp
      simp [storeSet] at hp
      rcases hp with h1 | h2
      · subst h1; exact hv
      · exact h p (List.mem_cons_of_mem _ h2)
    · intro p hp
      simp [storeSet, hak] at hp
      rcases hp with h1 | h2
      · subst h1; exact h (a, b) (List.mem_cons_self _ _)
      · exact ih (fun q hq => h q (List.mem_cons_of_mem _ hq)) p h2

theorem wfStore_save_task {s : Store} (h : WFStore s) (t : Task) :
    WFStore (save_task s t) := wfStore_storeSet h rfl

theorem update_task_status_of_none {s : Store} {i : String}
    (h : get_task s i = none) (now : Nat) (st : TaskStatus)
    (e : Option String) (n : Option Nat) :
    update_task_status now s i st e n = s := by
  unfold update_task_status
  rw [h]

theorem update_task_status_of_some {s : Store} {i : String} {t : Task}
    (h : get_task s i = some t) (now : Nat) (st : TaskStatus)
    (e : Option String) (n : Option Nat) :
    update_task_status now s i st e n =
      save_task s (apply_status_update now t st e n) := by
  unfold update_task_status
  rw [h]

theorem get_task_update_same {s : Store} (hwf : WFStore s) {i : String}
    {t : Task} (h : get_task s i = some t) (now : Nat) (st : TaskStatus)
    (e : Option String) (n : Option Nat) :
    get_task (update_task_status now s i st e n) i =
      some (reloaded (apply_status_update now t st e n)) := by
  rw [update_task_status_of_some h]
  have hid : t.task_id = i := get_task_task_id hwf h
  have h2 := get_task_save_task s (apply_status_update now t st e n)
  rwa [apply_status_update_task_id, hid] at h2

theorem wfStore_update {s : Store} (hwf : WFStore s) (now : Nat)
    (i : String) (st : TaskStatus) (e : Option String) (n : Option Nat) :
    WFStore (update_task_status now s i st e n) := by
  unfold update_task_status
  cases hg : get_task s i with
  | none => exact hwf
  | some t => exact wfStore_save_task hwf _

/-- Fixture event used in concrete evaluations: match id "m1". -/
def exGame : GameData :=
  { game_id := "g1"
    homeTeamName := "Lakers"
    awayTeamName := "Celtics"
    homeScore := "100"
    awayScore := "98"
    competitionStageDesc := "常规赛"
    matchStatus := "已结束"
    matchId := "m1" }

/-- Status-query fixture: ended with 10000 ratings (below the threshold). -/
def fetchEndedLow : String → Option StatusInfo :=
  fun _ => some { status := "已结束", rating_count := 10000 }

/-- Status-query fixture: ended with 44000 ratings (above the threshold). -/
def fetchEndedHigh : String → Option StatusInfo :=
  fun _ => some { status := "已结束", rating_count := 44000 }

/-- Fixture game snapshot carrying a non-empty match id and a metric. -/
def exGameInfo : GameInfo :=
  { game_id := "g1"
    home_team_name := "Lakers"
    away_team_name := "Celtics"
    home_score := "100"
    away_score := "98"
    competition_stage_desc := "常规赛"
    match_status := "已结束"
    match_id := "m1"
    rating_count := 44000 }

/-- Fixture task in PENDING with the snapshot above. -/
def exTask : Task :=
  { task_id := "t1"
    game_info := exGameInfo
    status := .pending
    create_time := some 0 }

/-- Claim C1 counterexample: for event `exGame` the status query returns
ENDED with metric 10000, strictly below the threshold 30000, yet the daily
task-creation step persists nothing at all — the store stays empty and no
task is created — contradicting "sets the newly created task's status to
WAITING with next_check_at one hour in the future and persists the task". -/
theorem C1_counterexample :
    fetchEndedLow exGame.matchId =
      some { status := "已结束", rating_count := 10000 } ∧
    (10000 : Int) < 30000 ∧
    start_daily_tasks [exGame] fetchEndedLow 100 [] = ([], []) := by
  decide

/-- Claim C1 (amended): for every event whose status query returns ENDED
with metric strictly below 30000 and for which no incomplete task already
exists, the daily task-creation step skips the event entirely: the store is
unchanged and no task is created or persisted (the WAITING-with-1h handling
applies only to the not-yet-ended / unknown-status branches). -/
theorem C1_amended (get_status : String → Option StatusInfo) (now : Nat)
    (store : Store) (tasks : List Task) (g : GameData) (info : StatusInfo)
    (hq : get_status g.matchId = some info)
    (hend : info.status = "已结束")
    (hlow : info.rating_count < 30000)
    (hinc : (get_tasks_by_match_id store g.matchId).filter (fun t =>
        ¬ (t.status = .completed ∨ t.status = .failed ∨ t.status = .cancelled))
      = []) :
    daily_step get_status now (store, tasks) g = (store, tasks) := by
  simp only [daily_step]
  rw [hinc, hq]
  simp [hend, not_le.mpr hlow]

/-- Witness for Claim C1 (amended) at the concrete fixture. -/
theorem C1_amended_witness :
    daily_step fetchEndedLow 100 ([], []) exGame = ([], []) :=
  C1_amended fetchEndedLow 100 [] [] exGame
    { status := "已结束", rating_count := 10000 }
    rfl rfl (by decide) (by decide)

/-- Claim C8: for every event whose status query returns ENDED with metric
at least 30000 (and no existing incomplete task for it), the daily step
creates a task, saves it, and its status is PENDING. -/
theorem C8_ended_high_creates_pending (get_status : String → Option StatusInfo)
    (now : Nat) (store : Store) (tasks : List Task) (g : GameData)
    (info : StatusInfo)
    (hq : get_status g.matchId = some info)
    (hend : info.status = "已结束")
    (hhigh : info.rating_count ≥ 30000)
    (hinc : (get_tasks_by_match_id store g.matchId).filter (fun t =>
        ¬ (t.status = .completed ∨ t.status = .failed ∨ t.status = .cancelled))
      = []) :
    ∃ t : Task,
      daily_step get_status now (store, tasks) g =
        (save_task store t, tasks ++ [t]) ∧
      t.status = .pending := by
  simp only [daily_step]
  rw [hinc, hq]
  rw [if_neg (fun hc => hc.2 rfl)]
  dsimp only
  rw [if_pos hend, if_pos hhigh]
  exact ⟨_, rfl, rfl⟩

/-- Witness for Claim C8 at the concrete fixture. -/
theorem C8_witness :
    ∃ t : Task,
      daily_step fetchEndedHigh 100 ([], []) exGame =
        (save_task [] t, [] ++ [t]) ∧
      t.status = .pending :=
  C8_ended_high_creates_pending fetchEndedHigh 100 [] [] exGame
    { status := "已结束", rating_count := 44000 }
    rfl rfl (by decide) (by decide)

/-- Claim C2 counterexample: saving `exTask` (whose snapshot has match id
"m1" and metric 44000) and reading it back yields a task whose snapshot has
match id "" and metric 0 — `GameInfo.to_dict` serializes neither field, so
the store does not round-trip every field. -/
theorem C2_roundtrip_loses_match_id :
    exTask.game_info.match_id = "m1" ∧
    exTask.game_info.rating_count = 44000 ∧
    get_task (save_task [] exTask) exTask.task_id ≠ some exTask ∧
    get_task (save_task [] exTask) exTask.task_id =
      some { exTask with game_info :=
        { exTask.game_info with match_id := "", rating_count := 0 } } := by
  decide

/-- Store after one daily run over `exGame` at time 1000 (threshold met, so
a PENDING task `task_g1_1000` is saved). -/
def c3_store1 : Store := (start_daily_tasks [exGame] fetchEndedHigh 1000 []).1

/-- Store after a second daily run over the same event list at time 2000. -/
def c3_store2 : Store := (start_daily_tasks [exGame] fetchEndedHigh 2000 c3_store1).1

/-- Claim C3 at the failing input: after the first daily run the store holds
the non-terminal (PENDING) task `task_g1_1000` for event "m1", yet
`get_tasks_by_match_id` finds nothing for "m1" (the stored snapshot lost its
match id), so the second run over the same event list creates and saves a
second task `task_g1_2000` — two non-terminal tasks for the same event. -/
theorem C3_second_run_duplicates :
    (get_all_tasks c3_store1).map (fun t => (t.task_id, t.status)) =
      [("task_g1_1000", .pending)] ∧
    get_tasks_by_match_id c3_store1 exGame.matchId = [] ∧
    (get_all_tasks c3_store2).map (fun t => (t.task_id, t.status)) =
      [("task_g1_1000", .pending), ("task_g1_2000", .pending)] := by
  decide

/-- Claim C4: for a task in WAITING, the re-check operation never moves the
stored task to any status other than WAITING or PENDING — in particular
never to FAILED or CANCELLED, whatever the status query returns — and the
stored status becomes PENDING only when the query returned ENDED with
metric at least 30000. -/
theorem C4_recheck_safe (get_status : String → Option StatusInfo) (now : Nat)
    (store : Store) (task : Task) (t' : Task)
    (hwf : WFStore store)
    (hw : task.status = .waiting_game_end)
    (h : get_task
        (recheck_game_status_and_update get_status now store task).1
        task.task_id = some t') :
    (t'.status = .waiting_game_end ∨ t'.status = .pending) ∧
    t'.status ≠ .failed ∧ t'.status ≠ .cancelled ∧
    (t'.status = .pending →
      ∃ info, get_status task.game_info.match_id = some info ∧
        info.status = "已结束" ∧ info.rating_count ≥ 30000) := by
  unfold recheck_game_status_and_update at h
  cases hq : get_status task.game_info.match_id with
  | none =>
    rw [hq] at h
    dsimp only at h
    rw [get_task_save_task] at h
    injection h with h2
    subst h2
    simp [hw]
  | some info =>
    rw [hq] at h
    dsimp only at h
    by_cases h1 : info.status = "已结束"
    · rw [if_pos h1] at h
      by_cases h2 : info.rating_count ≥ 30000
      · rw [if_pos h2] at h
        dsimp only at h
        cases hg : get_task store task.task_id with
        | none =>
          rw [update_task_status_of_none hg] at h
          rw [hg] at h
          exact Option.noConfusion h
        | some t0 =>
          rw [get_task_update_same hwf hg] at h
          injection h with h3
          subst h3
          refine ⟨Or.inr ?_, ?_, ?_, fun _ => ⟨info, ?_, h1, h2⟩⟩ <;> simp
      · rw [if_neg h2] at h
        dsimp only at h
        rw [get_task_save_task] at h
        injection h with h3
        subst h3
        simp [hw]
    · rw [if_neg h1] at h
      by_cases h3 : info.status = "未开始" ∨ info.status = "进行中"
      · rw [if_pos h3] at h
        dsimp only at h
        rw [get_task_save_task] at h
        injection h with h4
        subst h4
        simp [hw]
      · rw [if_neg h3] at h
        dsimp only at h
        rw [get_task_save_task] at h
        injection h with h4
        subst h4
        simp [hw]

/-- Fixture WAITING task for the C4 witness. -/
def c4_task : Task :=
  { task_id := "t1"
    game_info := exGameInfo
    status := .waiting_game_end
    create_time := some 0 }

/-- Store holding the fixture WAITING task. -/
def c4_store : Store := save_task [] c4_task

/-- The task the re-check produces at the fixture input. -/
def c4_expected : Task :=
  reloaded (apply_status_update 50 (reloaded c4_task) .pending none none)

/-- Witness for Claim C4 at the concrete fixture (ENDED, metric 44000, so
the stored task is promoted to PENDING). -/
theorem C4_witness :
    (c4_expected.status = .waiting_game_end ∨ c4_expected.status = .pending) ∧
    c4_expected.status ≠ .failed ∧ c4_expected.status ≠ .cancelled ∧
    (c4_expected.status = .pending →
      ∃ info, fetchEndedHigh c4_task.game_info.match_id = some info ∧
        info.status = "已结束" ∧ info.rating_count ≥ 30000) :=
  C4_recheck_safe fetchEndedHigh 50 c4_store c4_task c4_expected
    (by decide) rfl (by decide)

@[simp] theorem apply_status_update_error_some (now : Nat) (t : Task)
    (st : TaskStatus) (e : String) (n : Option Nat) :
    (apply_status_update now t st (some e) n).error_msg =
      if e = "" then t.error_msg else some e := rfl

/-- Store holding the fixture PENDING task `exTask` under key "t1". -/
def c5_store : Store := save_task [] exTask

/-- Collaborator fixture: content acquisition succeeds. -/
def okAcquire : GameInfo → Except String Content := fun _ => .ok "raw"

/-- Collaborator fixture: video generation returns a null path. -/
def genNone : Content → Except String (Option String) := fun _ => .ok none

/-- Collaborator fixture: video generation returns a real path. -/
def genPath : Content → Except String (Option String) :=
  fun _ => .ok (some "video.mp4")

/-- Collaborator fixture: publishing reports success. -/
def pubTrue : String → GameInfo → Except String Bool := fun _ _ => .ok true

/-- Collaborator fixture: publishing reports failure (returns False). -/
def pubFalse : String → GameInfo → Except String Bool := fun _ _ => .ok false

/-- Claim C5 counterexample: executing the PENDING fixture task with a
generation step that returns a null artifact path ends with the task stored
as COMPLETED, not FAILED — the code merely skips publishing and falls
through to the COMPLETED transition. -/
theorem C5_counterexample :
    genNone "raw" = Except.ok none ∧
    (get_task (execute_task okAcquire genNone pubTrue 7 c5_store "t1")
        "t1").map (fun t => t.status) = some .completed :=
  ⟨rfl, by decide⟩

/-- Claim C5 (amended): during execute on a PENDING task, a null/absent
artifact path from the generation step does NOT fail the task: publishing
is skipped and the task still transitions to COMPLETED (a raised error in
the generation call, by contrast, is what produces FAILED). -/
theorem C5_amended (acquire : GameInfo → Except String Content)
    (generate : Content → Except String (Option String))
    (publish : String → GameInfo → Except String Bool)
    (now : Nat) (store : Store) (task_id : String) (t : Task) (c : Content)
    (vp : Option String)
    (hwf : WFStore store)
    (hget : get_task store task_id = some t)
    (hp : t.status = .pending)
    (hacq : acquire t.game_info = .ok c)
    (hgen : generate c = .ok vp)
    (hfal : falsy_path vp = true) :
    ∃ t', get_task (execute_task acquire generate publish now store task_id)
        task_id = some t' ∧ t'.status = .completed ∧ t'.status ≠ .failed := by
  have hexec : execute_task acquire generate publish now store task_id =
      update_task_status now
        (update_task_status now
          (update_task_status now
            (update_task_status now store task_id .running none none)
            task_id .collecting none none)
          task_id .generating none none)
        task_id .completed none none := by
    unfold execute_task
    rw [hget]
    simp [hp, hacq, hgen, hfal]
  have hwf1 := wfStore_update hwf now task_id .running none none
  have hg1 := get_task_update_same hwf hget now .running none none
  have hwf2 := wfStore_update hwf1 now task_id .collecting none none
  have hg2 := get_task_update_same hwf1 hg1 now .collecting none none
  have hwf3 := wfStore_update hwf2 now task_id .generating none none
  have hg3 := get_task_update_same hwf2 hg2 now .generating none none
  have hg4 := get_task_update_same hwf3 hg3 now .completed none none
  rw [hexec]
  exact ⟨_, hg4, by simp, by simp⟩

/-- Witness for Claim C5 (amended) at the concrete fixture. -/
theorem C5_amended_witness :
    ∃ t', get_task (execute_task okAcquire genNone pubTrue 7 c5_store "t1")
        "t1" = some t' ∧ t'.status = .completed ∧ t'.status ≠ .failed :=
  C5_amended okAcquire genNone pubTrue 7 c5_store "t1" (reloaded exTask)
    "raw" none (by decide) (by decide) (by decide) rfl rfl rfl

/-- Claim C6: during execute on a PENDING task with no recorded error, when
collection and generation succeed and the publish call returns failure
(False), the task is stored as COMPLETED and its error field stays unset —
the publish failure is only logged, never recorded on the task. -/
theorem C6_publish_failure_still_completed
    (acquire : GameInfo → Except String Content)
    (generate : Content → Except String (Option String))
    (publish : String → GameInfo → Except String Bool)
    (now : Nat) (store : Store) (task_id : String) (t : Task) (c : Content)
    (p : String)
    (hwf : WFStore store)
    (hget : get_task store task_id = some t)
    (hp : t.status = .pending)
    (herr : t.error_msg = none)
    (hacq : acquire t.game_info = .ok c)
    (hgen : generate c = .ok (some p))
    (hne : p ≠ "")
    (hpub : publish p t.game_info = .ok false) :
    ∃ t', get_task (execute_task acquire generate publish now store task_id)
        task_id = some t' ∧ t'.status = .completed ∧ t'.error_msg = none := by
  have hexec : execute_task acquire generate publish now store task_id =
      update_task_status now
        (update_task_status now
          (update_task_status now
            (update_task_status now
              (update_task_status now store task_id .running none none)
              task_id .collecting none none)
            task_id .generating none none)
          task_id .publishing none none)
        task_id .completed none none := by
    unfold execute_task
    rw [hget]
    simp [hp, hacq, hgen, hne, hpub, falsy_path]
  have hwf1 := wfStore_update hwf now task_id .running none none
  have hg1 := get_task_update_same hwf hget now .running none none
  have hwf2 := wfStore_update hwf1 now task_id .collecting none none
  have hg2 := get_task_update_same hwf1 hg1 now .collecting none none
  have hwf3 := wfStore_update hwf2 now task_id .generating none none
  have hg3 := get_task_update_same hwf2 hg2 now .generating none none
  have hwf4 := wfStore_update hwf3 now task_id .publishing none none
  have hg4 := get_task_update_same hwf3 hg3 now .publishing none none
  have hg5 := get_task_update_same hwf4 hg4 now .completed none none
  rw [hexec]
  refine ⟨_, hg5, by simp, ?_⟩
  simp [herr]

/-- Witness for Claim C6 at the concrete fixture (publish returns False). -/
theorem C6_witness :
    ∃ t', get_task (execute_task okAcquire genPath pubFalse 7 c5_store "t1")
        "t1" = some t' ∧ t'.status = .completed ∧ t'.error_msg = none :=
  C6_publish_failure_still_completed okAcquire genPath pubFalse 7 c5_store
    "t1" (reloaded exTask) "raw" "video.mp4" (by decide) (by decide)
    (by decide) (by decide) rfl rfl (by decide) rfl

/-- Claim C7: invoking execute on a stored task whose status is not PENDING
changes nothing in the store, and `start_task` additionally reports the
negative result False. -/
theorem C7_execute_non_pending_noop (acquire : GameInfo → Except String Content)
    (generate : Content → Except String (Option String))
    (publish : String → GameInfo → Except String Bool)
    (now : Nat) (store : Store) (task_id : String) (t : Task)
    (hget : get_task store task_id = some t)
    (hne : t.status ≠ .pending) :
    execute_task acquire generate publish now store task_id = store ∧
    start_task acquire generate publish now store task_id = (store, false) := by
  constructor
  · unfold execute_task
    rw [hget]
    simp [hne]
  · unfold start_task
    rw [hget]
    simp [hne]

/-- Fixture COMPLETED task for the C7 witness. -/
def c7_task : Task :=
  { task_id := "t2"
    game_info := exGameInfo
    status := .completed
    create_time := some 0 }

/-- Store holding the fixture COMPLETED task. -/
def c7_store : Store := save_task [] c7_task

/-- Witness for Claim C7 at the concrete fixture. -/
theorem C7_witness :
    execute_task okAcquire genPath pubTrue 9 c7_store "t2" = c7_store ∧
    start_task okAcquire genPath pubTrue 9 c7_store "t2" = (c7_store, false) :=
  C7_execute_non_pending_noop okAcquire genPath pubTrue 9 c7_store "t2"
    (reloaded c7_task) (by decide) (by decide)

/-- Claim C9 counterexample: a failing read of the backing file is swallowed
into the empty record set `{"tasks": {}}`, and a failing write leaves the
file unchanged — the store errors never escape, contradicting "a
persistence failure is fatal to the whole process". -/
theorem C9_counterexample :
    load_data (Except.error "Permission denied") = { tasks := [] } ∧
    save_data false { tasks := c7_store } { tasks := [] } =
      { tasks := c7_store } := by
  decide

/-- Claim C9 (amended): both persistence error handlers swallow the error —
`_load_data` logs and returns the empty record set, `_save_data` logs and
leaves the file as it was — and the orchestrator proceeds. -/
theorem C9_amended :
    (∀ e : String, load_data (Except.error e) = { tasks := [] }) ∧
    (∀ file d : StoreData, save_data false file d = file) :=
  ⟨fun _ => rfl, fun _ _ => rfl⟩

/-- Claim C10: `update_task_status` on a task id absent from the store is a
silent no-op for every status, error message and next-check time. -/
theorem C10_update_missing_id_noop (now : Nat) (store : Store)
    (task_id : String) (st : TaskStatus) (e : Option String)
    (n : Option Nat)
    (h : storeGet store task_id = none) :
    update_task_status now store task_id st e n = store := by
  have hg : get_task store task_id = none := by simp [get_task, h]
  exact update_task_status_of_none hg now st e n

/-- Witness for Claim C10 at the concrete fixture. -/
theorem C10_witness :
    update_task_status 9 c5_store "missing" .failed (some "boom") (some 77) =
      c5_store :=
  C10_update_missing_id_noop 9 c5_store "missing" .failed (some "boom")
    (some 77) (by decide)

end Sched
